import Mathlib

/-!
Shallow embedding of the wallsplash repository (yufengwng/wallsplash).

The repository contains two generations of the same program side by side:
`src/lib.rs` (with its private `LocalFetcher` and the `unsplash::Client`
remote fetcher of `src/unsplash.rs`) and `src/fetchers.rs` (with a
`LocalFetcher` and an `UnsplashFetcher` of identical structure but slightly
different cursor arithmetic).  Both are embedded below: namespace `Lib`
holds the `lib.rs` definitions, namespace `Unsplash` the `unsplash.rs`
client, and namespace `Fetchers` the `fetchers.rs` fetchers.

Effects are made explicit: directory listings, HTTP responses and the
result of spawning the display command are inputs; the cache directory is
a `Finset String` of file names; `std::time::Instant` is a `Nat`.
-/

deriving instance DecidableEq for Except

namespace Wallsplash

/-- The error enum of `src/errors.rs` (`WallsplashError`). -/
inductive WallsplashError
  | LocalNoImage
  | UnsplashAPIFail
  | UnsplashNoImage
deriving DecidableEq, Repr

/-- A boxed `std::error::Error` (`Box<Error>`): either one of the library's
own errors or an error propagated from the transport / filesystem / parser
layer, abstracted to its message. -/
inductive BoxError
  | lib (e : WallsplashError)
  | other (msg : String)
deriving DecidableEq, Repr

/-- One entry produced by `fs::read_dir`: its path and whether
`path.is_file()` holds. -/
structure DirEntry where
  path : String
  isFile : Bool
deriving DecidableEq, Repr

/-- The `images` vector built by both local fetchers: the paths of the
regular-file entries of the listing, in listing order. -/
def imageFiles (entries : List DirEntry) : List String :=
  (entries.filter (fun e => e.isFile)).map (fun e => e.path)

/-- A photo descriptor parsed from the list-endpoint JSON
(`struct Photo { id, links: Links { download } }`, identical in
`unsplash.rs` and `fetchers.rs`). -/
structure Photo where
  id : String
  download : String
deriving DecidableEq, Repr

/-- A mime type, as matched by `Mime(TopLevel::Image, SubLevel::Jpeg, _)`. -/
structure Mime where
  top : String
  sub : String
deriving DecidableEq, Repr

/-- The content-type test of the download loop:
`Mime(TopLevel::Image, SubLevel::Jpeg, _)`. -/
def Mime.isImageJpeg (m : Mime) : Bool :=
  m.top == "image" && m.sub == "jpeg"

/-- The observable effects of fetching one photo binary: the declared
content type of the response (absent when the header is missing), and the
results of `fs::File::create` and `io::copy` should the photo be kept. -/
structure ImgResponse where
  contentType : Option Mime
  createRes : Except BoxError Unit
  copyRes : Except BoxError Unit
deriving DecidableEq, Repr

/-- The list-endpoint response: whether `resp.status().is_success()`, and
the result of `resp.json::<Vec<Photo>>()`. -/
structure ListResponse where
  statusSuccess : Bool
  jsonBody : Except BoxError (List Photo)
deriving DecidableEq, Repr

/-- The network environment a refresh cycle runs against:
`reqwest::Client::new()`, the list-endpoint request (`send()?` plus the
response), and, for each photo position in the batch, the download
request. -/
structure NetEnv where
  clientRes : Except BoxError Unit
  listRes : Except BoxError ListResponse
  imgRes : Nat → Except BoxError ImgResponse

/-- Cache file name for a write index: `format!("{}.jpg", idx)`. -/
def cacheName (i : Nat) : String := toString i ++ ".jpg"

/-- `dir.join(name)` for the cache directory. -/
def joinPath (dir name : String) : String := dir ++ "/" ++ name

/-- The set of cache file names for `cnt` consecutive write indices
starting at `start`. -/
def cacheNames (start cnt : Nat) : Finset String :=
  (Finset.range cnt).image (fun j => cacheName (start + j))

/-- The `for photo in photos` loop of `download_images` (identical in
`unsplash.rs` lines 111-138 and `fetchers.rs` lines 150-175): `pos` is the
position of the next photo in the batch, `idx` the running write index,
`cache` the cache-directory contents.  A fetch error, create error or copy
error aborts the cycle; a non-jpeg (or absent) content type skips the
photo without consuming an index; a kept photo is written to
`<idx>.jpg`. -/
def downloadLoop (env : NetEnv) : List Photo → Nat → Nat → Finset String →
    Except BoxError Nat × Finset String
  | [], _, idx, cache => (Except.ok idx, cache)
  | _ :: rest, pos, idx, cache =>
    match env.imgRes pos with
    | Except.error e => (Except.error e, cache)
    | Except.ok resp =>
      match resp.contentType with
      | none => downloadLoop env rest (pos + 1) idx cache
      | some m =>
        if m.isImageJpeg then
          match resp.createRes with
          | Except.error e => (Except.error e, cache)
          | Except.ok _ =>
            let cache2 := insert (cacheName idx) cache
            match resp.copyRes with
            | Except.error e => (Except.error e, cache2)
            | Except.ok _ => downloadLoop env rest (pos + 1) (idx + 1) cache2
        else
          downloadLoop env rest (pos + 1) idx cache

/-- `download_images` (identical logic in `Client::download_images`,
`unsplash.rs` lines 90-141, and `UnsplashFetcher::download_images`,
`fetchers.rs` lines 126-178): build the client, issue the authenticated
list request, fail with `UnsplashAPIFail` on a non-success status,
parse the body, then run the download loop from position 0 and write
index 0.  Returns the count of files written and the new cache
contents. -/
def download_images (env : NetEnv) (cache : Finset String) :
    Except BoxError Nat × Finset String :=
  match env.clientRes with
  | Except.error e => (Except.error e, cache)
  | Except.ok _ =>
    match env.listRes with
    | Except.error e => (Except.error e, cache)
    | Except.ok resp =>
      if resp.statusSuccess then
        match resp.jsonBody with
        | Except.error e => (Except.error e, cache)
        | Except.ok photos => downloadLoop env photos 0 0 cache
      else
        (Except.error (BoxError.lib WallsplashError.UnsplashAPIFail), cache)

/-- Whether the photo at position `pos` of the batch would be kept by the
download loop: its fetch yields a response whose content type is
image/jpeg. -/
def envJpegAt (env : NetEnv) (pos : Nat) : Bool :=
  match env.imgRes pos with
  | Except.ok r =>
    match r.contentType with
    | some m => m.isImageJpeg
    | none => false
  | Except.error _ => false

/-- Number of kept (image/jpeg) photos among `len` consecutive batch
positions starting at `pos`. -/
def jpegCount (env : NetEnv) (pos : Nat) : Nat → Nat
  | 0 => 0
  | n + 1 => (if envJpegAt env pos then 1 else 0) + jpegCount env (pos + 1) n

/-- Result of one `next_image_path` call on a remote fetcher with state
type `σ`: the returned value, the post state, the cache-directory contents
after the call, and whether a refresh cycle (network traffic) ran. -/
structure TickOut (σ : Type) where
  result : Except BoxError String
  state : σ
  cache : Finset String
  refreshed : Bool
deriving DecidableEq

end Wallsplash

namespace Wallsplash.Lib

/-- The private `LocalFetcher` of `src/lib.rs` (lines 44-47): configured
directory and cursor `curr`. -/
structure LocalFetcher where
  dir : String
  curr : Nat
deriving DecidableEq, Repr

/-- `LocalFetcher::new` (`lib.rs` lines 50-55). -/
def LocalFetcher.new (dir : String) : LocalFetcher :=
  { dir := dir, curr := 0 }

/-- `LocalFetcher::next_image_path` (`lib.rs` lines 59-83), with the
result of `fs::read_dir` (or the first failing entry) supplied as input.
On a non-empty listing: reset `curr` to 0 when out of range, return the
file at `curr`, increment `curr`.  On an empty listing it returns
`WallsplashError::UnsplashNoImage` (line 82). -/
def LocalFetcher.next_image_path (st : LocalFetcher)
    (listing : Except BoxError (List DirEntry)) :
    Except BoxError String × LocalFetcher :=
  match listing with
  | Except.error e => (Except.error e, st)
  | Except.ok entries =>
    let images := imageFiles entries
    if images.length > 0 then
      let c := if st.curr ≥ images.length then 0 else st.curr
      (Except.ok (images.getD c ""), { st with curr := c + 1 })
    else
      (Except.error (BoxError.lib WallsplashError.UnsplashNoImage), st)

end Wallsplash.Lib

namespace Wallsplash.Unsplash

open Wallsplash

/-- `unsplash::Client` (`unsplash.rs` lines 29-39).  The `TempDir` is
abstracted to its path string; `Instant` fields are `Nat`. -/
structure Client where
  token : String
  limit : Nat
  dir : String
  curr : Nat
  total : Nat
  cached : Bool
  period : Nat
  timestamp : Nat
deriving DecidableEq, Repr

/-- `Client::new` (`unsplash.rs` lines 42-56): fresh temp dir, cursor 0,
total 0, not cached, timestamp now. -/
def Client.new (token : String) (limit : Nat) (period : Nat)
    (dir : String) (now : Nat) : Client :=
  { token := token, limit := limit, dir := dir, curr := 0, total := 0,
    cached := false, period := period, timestamp := now }

/-- The refresh condition of `next_image_path` (`unsplash.rs` line 61):
`!self.cached || self.timestamp.elapsed() >= self.period`. -/
def Client.needsRefresh (st : Client) (now : Nat) : Bool :=
  !st.cached || decide (st.period ≤ now - st.timestamp)

/-- The index actually served by `unsplash.rs` lines 76-80: `curr`,
reset to 0 first when `curr >= total`. -/
def Client.usedIdx (st : Client) : Nat :=
  if st.curr ≥ st.total then 0 else st.curr

/-- The tail of `next_image_path` after the refresh block (`unsplash.rs`
lines 75-87): serve `<usedIdx>.jpg` and advance the cursor when
`total > 0`, else fail with `UnsplashNoImage`. -/
def Client.servePath (st : Client) (cache : Finset String)
    (refreshed : Bool) : TickOut Client :=
  if st.total > 0 then
    { result := Except.ok (joinPath st.dir (cacheName st.usedIdx)),
      state := { st with curr := st.usedIdx + 1 },
      cache := cache, refreshed := refreshed }
  else
    { result := Except.error (BoxError.lib WallsplashError.UnsplashNoImage),
      state := st, cache := cache, refreshed := refreshed }

/-- `Client::next_image_path` (`unsplash.rs` lines 60-88).  When the
refresh condition holds, run `download_images`: on success set
`cached = true`, `total = len` and `timestamp = now` (line 72 runs only on
the success path, the error path returns early); on failure set
`cached = false` and propagate.  Then serve from the cache. -/
def Client.next_image_path (st : Client) (cache : Finset String)
    (now : Nat) (env : NetEnv) : TickOut Client :=
  if st.needsRefresh now then
    match download_images env cache with
    | (Except.ok len, cache2) =>
      Client.servePath
        { st with cached := true, total := len, timestamp := now }
        cache2 true
    | (Except.error e, cache2) =>
      { result := Except.error e, state := { st with cached := false },
        cache := cache2, refreshed := true }
  else
    Client.servePath st cache false

/-- State and cache before the k-th of a sequence of `next_image_path`
calls, the k-th call happening at time `times k` against `env`. -/
def clientRun (st : Client) (cache : Finset String) (times : Nat → Nat)
    (env : NetEnv) : Nat → Client × Finset String
  | 0 => (st, cache)
  | k + 1 =>
    let p := clientRun st cache times env k
    let t := Client.next_image_path p.1 p.2 (times k) env
    (t.state, t.cache)

/-- Result of the k-th call of the sequence. -/
def clientVisit (st : Client) (cache : Finset String) (times : Nat → Nat)
    (env : NetEnv) (k : Nat) : Except BoxError String :=
  let p := clientRun st cache times env k
  (Client.next_image_path p.1 p.2 (times k) env).result

/-- The cache invariant exactly as claim C3 states it: `cached == true`
implies `total > 0` and every index in `[0, total)` corresponds to an
existing cache file named `<i>.jpg`. -/
def Client.cacheInv (st : Client) (cache : Finset String) : Prop :=
  st.cached = true → 0 < st.total ∧ ∀ i, i < st.total → cacheName i ∈ cache

/-- The weakened cache invariant that the code actually maintains:
`cached == true` implies every index in `[0, total)` corresponds to an
existing cache file (`total` may be 0). -/
def Client.cacheInvW (st : Client) (cache : Finset String) : Prop :=
  st.cached = true → ∀ i, i < st.total → cacheName i ∈ cache

end Wallsplash.Unsplash

namespace Wallsplash.Fetchers

open Wallsplash

/-- The `LocalFetcher` of `src/fetchers.rs` (lines 23-29): configured
directory and cursor `next`. -/
structure LocalFetcher where
  dir : String
  next : Nat
deriving DecidableEq, Repr

/-- `LocalFetcher::new` (`fetchers.rs` lines 31-38). -/
def LocalFetcher.new (dir : String) : LocalFetcher :=
  { dir := dir, next := 0 }

/-- `LocalFetcher::next_image_path` (`fetchers.rs` lines 41-63): on a
non-empty listing reduce `next` modulo the listing size, return the file
there, increment; on an empty listing fail with
`WallsplashError::LocalNoImage` (line 62). -/
def LocalFetcher.next_image_path (st : LocalFetcher)
    (listing : Except BoxError (List DirEntry)) :
    Except BoxError String × LocalFetcher :=
  match listing with
  | Except.error e => (Except.error e, st)
  | Except.ok entries =>
    let images := imageFiles entries
    if images.length > 0 then
      let n := st.next % images.length
      (Except.ok (images.getD n ""), { st with next := n + 1 })
    else
      (Except.error (BoxError.lib WallsplashError.LocalNoImage), st)

/-- `UnsplashFetcher` (`fetchers.rs` lines 82-99).  The cache `PathBuf`
is abstracted to a string; `Instant` fields are `Nat`. -/
structure UnsplashFetcher where
  token : String
  limit : Nat
  dir : String
  next : Nat
  total : Nat
  cached : Bool
  refresh : Nat
  timestamp : Nat
deriving DecidableEq, Repr

/-- `UnsplashFetcher::new` (`fetchers.rs` lines 102-123): cursor 0,
total 0, not cached, timestamp now.  The cache directory
(`~/.config/wallsplash/cache`) is created if missing but its prior
contents are kept, so the initial cache contents are an input. -/
def UnsplashFetcher.new (token : String) (limit : Nat) (refresh : Nat)
    (dir : String) (now : Nat) : UnsplashFetcher :=
  { token := token, limit := limit, dir := dir, next := 0, total := 0,
    cached := false, refresh := refresh, timestamp := now }

/-- The refresh condition of `fetchers.rs` line 183:
`!self.cached || self.timestamp.elapsed() >= self.refresh`. -/
def UnsplashFetcher.needsRefresh (st : UnsplashFetcher) (now : Nat) : Bool :=
  !st.cached || decide (st.refresh ≤ now - st.timestamp)

/-- The index served by `fetchers.rs` lines 198-200: `next % total`. -/
def UnsplashFetcher.usedIdx (st : UnsplashFetcher) : Nat :=
  st.next % st.total

/-- The tail of `UnsplashFetcher::next_image_path` after the refresh block
(`fetchers.rs` lines 197-207). -/
def UnsplashFetcher.servePath (st : UnsplashFetcher) (cache : Finset String)
    (refreshed : Bool) : TickOut UnsplashFetcher :=
  if st.total > 0 then
    { result := Except.ok (joinPath st.dir (cacheName st.usedIdx)),
      state := { st with next := st.usedIdx + 1 },
      cache := cache, refreshed := refreshed }
  else
    { result := Except.error (BoxError.lib WallsplashError.UnsplashNoImage),
      state := st, cache := cache, refreshed := refreshed }

/-- `UnsplashFetcher::next_image_path` (`fetchers.rs` lines 182-208),
same refresh structure as `unsplash.rs`. -/
def UnsplashFetcher.next_image_path (st : UnsplashFetcher)
    (cache : Finset String) (now : Nat) (env : NetEnv) :
    TickOut UnsplashFetcher :=
  if st.needsRefresh now then
    match download_images env cache with
    | (Except.ok len, cache2) =>
      UnsplashFetcher.servePath
        { st with cached := true, total := len, timestamp := now }
        cache2 true
    | (Except.error e, cache2) =>
      { result := Except.error e, state := { st with cached := false },
        cache := cache2, refreshed := true }
  else
    UnsplashFetcher.servePath st cache false

/-- State and cache before the k-th of a sequence of `next_image_path`
calls on an `UnsplashFetcher`. -/
def uRun (st : UnsplashFetcher) (cache : Finset String) (times : Nat → Nat)
    (env : NetEnv) : Nat → UnsplashFetcher × Finset String
  | 0 => (st, cache)
  | k + 1 =>
    let p := uRun st cache times env k
    let t := UnsplashFetcher.next_image_path p.1 p.2 (times k) env
    (t.state, t.cache)

/-- Result of the k-th call of the sequence. -/
def uVisit (st : UnsplashFetcher) (cache : Finset String)
    (times : Nat → Nat) (env : NetEnv) (k : Nat) : Except BoxError String :=
  let p := uRun st cache times env k
  (UnsplashFetcher.next_image_path p.1 p.2 (times k) env).result

/-- Claim C3's invariant for the `fetchers.rs` remote fetcher. -/
def UnsplashFetcher.cacheInv (st : UnsplashFetcher)
    (cache : Finset String) : Prop :=
  st.cached = true → 0 < st.total ∧ ∀ i, i < st.total → cacheName i ∈ cache

/-- The weakened invariant the `fetchers.rs` code maintains. -/
def UnsplashFetcher.cacheInvW (st : UnsplashFetcher)
    (cache : Finset String) : Prop :=
  st.cached = true → ∀ i, i < st.total → cacheName i ∈ cache

end Wallsplash.Fetchers

namespace Wallsplash

/-- `Config` (`lib.rs` lines 18-30); durations in seconds. -/
structure Config where
  dir : String
  token : String
  limit : Nat
  timeout : Nat
  refresh : Nat
deriving DecidableEq, Repr

/-- The state owned by the `run` loop of `lib.rs` lines 86-113: the
`do_local` toggle, the two fetchers, and the remote cache directory.
`do_local = true` is the spec's `UseLocal` state, `false` is
`UseRemote`. -/
structure LoopState where
  do_local : Bool
  l : Lib.LocalFetcher
  client : Unsplash.Client
  cache : Finset String
deriving DecidableEq

/-- The effects one iteration of the loop runs against: the local
directory listing, the network environment and clock for the remote
fetcher, and the result of `Command::new("feh")...output()` (an error when
the display command cannot be invoked). -/
structure TickEnv where
  listing : Except BoxError (List DirEntry)
  net : NetEnv
  now : Nat
  display : Except BoxError Unit

/-- The state `run` (`lib.rs` lines 89-92) enters the loop with:
`do_local = true`, a fresh `LocalFetcher` on the configured directory and
a fresh `unsplash::Client` (whose temp cache directory starts empty). -/
def runInit (cfg : Config) (tmpdir : String) (now : Nat) : LoopState :=
  { do_local := true,
    l := Lib.LocalFetcher.new cfg.dir,
    client := Unsplash.Client.new cfg.token cfg.limit cfg.refresh tmpdir now,
    cache := ∅ }

/-- The source result of a tick (`lib.rs` lines 95-99): the currently-due
fetcher's `next_image_path` value. -/
def tickSource (s : LoopState) (env : TickEnv) : Except BoxError String :=
  if s.do_local then
    (s.l.next_image_path env.listing).1
  else
    (s.client.next_image_path s.cache env.now env.net).result

/-- One iteration of the `loop` in `run` (`lib.rs` lines 94-112): query
the due source; on success invoke the display command, whose failure is
propagated by `?` (line 103) and so returns from `run`, ending the loop;
on source failure log and continue.  A completed iteration toggles
`do_local` (line 110) and sleeps.  `Except.error e` means `run` returned
`Err(e)`; `Except.ok s2` is the state of the next iteration. -/
def runTick (s : LoopState) (env : TickEnv) : Except BoxError LoopState :=
  let q :=
    if s.do_local then
      let p := s.l.next_image_path env.listing
      (p.1, { s with l := p.2 })
    else
      let t := s.client.next_image_path s.cache env.now env.net
      (t.result, { s with client := t.state, cache := t.cache })
  match q.1 with
  | Except.ok _ =>
    match env.display with
    | Except.error e => Except.error e
    | Except.ok _ => Except.ok { q.2 with do_local := !q.2.do_local }
  | Except.error _ =>
    Except.ok { q.2 with do_local := !q.2.do_local }

/-- The loop state as updated by the source query of a tick (the fetcher
and cache updates of `lib.rs` lines 95-99), before the toggle. -/
def tickState (s : LoopState) (env : TickEnv) : LoopState :=
  if s.do_local then
    { s with l := (s.l.next_image_path env.listing).2 }
  else
    let t := s.client.next_image_path s.cache env.now env.net
    { s with client := t.state, cache := t.cache }

/-- State of `lib.rs`'s `LocalFetcher` before the k-th of a sequence of
`next_image_path` calls against a fixed directory listing. -/
def localRun (st : Lib.LocalFetcher)
    (listing : Except BoxError (List DirEntry)) : Nat → Lib.LocalFetcher
  | 0 => st
  | k + 1 => (Lib.LocalFetcher.next_image_path (localRun st listing k) listing).2

/-- Result of the k-th call of that sequence. -/
def localVisit (st : Lib.LocalFetcher)
    (listing : Except BoxError (List DirEntry)) (k : Nat) :
    Except BoxError String :=
  (Lib.LocalFetcher.next_image_path (localRun st listing k) listing).1

/-- State of `fetchers.rs`'s `LocalFetcher` before the k-th call of a
sequence against a fixed listing. -/
def flocalRun (st : Fetchers.LocalFetcher)
    (listing : Except BoxError (List DirEntry)) : Nat → Fetchers.LocalFetcher
  | 0 => st
  | k + 1 =>
    (Fetchers.LocalFetcher.next_image_path (flocalRun st listing k) listing).2

/-- Result of the k-th call of that sequence. -/
def flocalVisit (st : Fetchers.LocalFetcher)
    (listing : Except BoxError (List DirEntry)) (k : Nat) :
    Except BoxError String :=
  (Fetchers.LocalFetcher.next_image_path (flocalRun st listing k) listing).1

/-! Concrete inputs used by witnesses and counterexamples. -/

/-- A remote-fetcher state with a warm, fresh 5-image cache and the
cursor at 2. -/
def c4st : Unsplash.Client :=
  { token := "tok", limit := 10, dir := "/cache", curr := 2, total := 5,
    cached := true, period := 100, timestamp := 0 }

/-- A network environment whose list endpoint answers with a non-success
status (e.g. HTTP 401). -/
def env401 : NetEnv :=
  { clientRes := Except.ok (), listRes := Except.ok ⟨false, Except.ok []⟩,
    imgRes := fun _ => Except.error (BoxError.other "unused") }

/-- A network environment whose list endpoint returns one photo whose
binary has content type image/png, so the refresh keeps nothing. -/
def envPng : NetEnv :=
  { clientRes := Except.ok (),
    listRes := Except.ok ⟨true, Except.ok [{ id := "p1", download := "u1" }]⟩,
    imgRes := fun _ =>
      Except.ok { contentType := some { top := "image", sub := "png" },
                  createRes := Except.ok (), copyRes := Except.ok () } }

/-- A fresh `unsplash.rs` client. -/
def c9st : Unsplash.Client := Unsplash.Client.new "tok" 3 100 "/t" 0

/-- A network environment whose list endpoint returns three photos —
jpeg, png, jpeg — every fetch and write succeeding, so a refresh keeps
photos 0 and 2 as cache files 0.jpg and 1.jpg. -/
def envC5 : NetEnv :=
  { clientRes := Except.ok (),
    listRes := Except.ok ⟨true, Except.ok
      [{ id := "p1", download := "u1" }, { id := "p2", download := "u2" },
       { id := "p3", download := "u3" }]⟩,
    imgRes := fun pos =>
      if pos = 1 then
        Except.ok { contentType := some { top := "image", sub := "png" },
                    createRes := Except.ok (), copyRes := Except.ok () }
      else
        Except.ok { contentType := some { top := "image", sub := "jpeg" },
                    createRes := Except.ok (), copyRes := Except.ok () } }

/-- A network environment whose list endpoint succeeds with an empty
photo batch. -/
def envEmptyList : NetEnv :=
  { clientRes := Except.ok (), listRes := Except.ok ⟨true, Except.ok []⟩,
    imgRes := fun _ => Except.error (BoxError.other "unused") }

/-- A fresh `fetchers.rs` fetcher. -/
def c9stF : Fetchers.UnsplashFetcher :=
  Fetchers.UnsplashFetcher.new "tok" 3 100 "/cfg" 0

/-- A concrete configuration. -/
def cfg0 : Config :=
  { dir := "/imgs", token := "tok", limit := 10, timeout := 60,
    refresh := 86400 }

/-- A freshly initialized rotator loop. -/
def c1s : LoopState := runInit cfg0 "/tmpu" 0

/-- A warm, fresh `unsplash.rs` client whose cursor (5) exceeds its cache
size (3) — reachable when a refresh shrinks the cache. -/
def c7st : Unsplash.Client :=
  { token := "t", limit := 10, dir := "/tmp/u", curr := 5, total := 3,
    cached := true, period := 100, timestamp := 0 }

/-- A warm, fresh `fetchers.rs` fetcher with cursor 7 over 3 cached
images. -/
def c7stF : Fetchers.UnsplashFetcher :=
  { token := "t", limit := 5, dir := "/cfg", next := 7, total := 3,
    cached := true, refresh := 100, timestamp := 0 }

/-- A tick on which the local source succeeds but the display command
cannot be spawned. -/
def c1env : TickEnv :=
  { listing := Except.ok [{ path := "/imgs/a.jpg", isFile := true }],
    net := env401, now := 0,
    display := Except.error (BoxError.other "feh: spawn failed") }

/-- A loop state on a tick where the local source fails (empty listing)
and the display command would succeed (it is not reached). -/
def c1ws : LoopState :=
  { do_local := true, l := { dir := "/empty", curr := 0 },
    client := Unsplash.Client.new "tk" 2 50 "/cc" 0, cache := ∅ }

/-- The environment of that tick. -/
def c1wenv : TickEnv :=
  { listing := Except.ok [], net := env401, now := 0,
    display := Except.ok () }

/-- A rotator loop state about to serve from the remote source. -/
def c8s : LoopState :=
  { do_local := false, l := { dir := "/pics", curr := 1 },
    client := c4st, cache := cacheNames 0 5 }

/-- A tick on which the remote source succeeds (warm fresh cache) but the
display command cannot be spawned. -/
def c8env : TickEnv :=
  { listing := Except.ok [], net := env401, now := 10,
    display := Except.error (BoxError.other "feh: not found") }

/-- A loop state whose tick completes (remote source fails, which is
logged), used to exhibit the toggle. -/
def c8ws : LoopState :=
  { do_local := false, l := { dir := "/pics", curr := 0 },
    client := Unsplash.Client.new "tk" 3 100 "/tc" 0, cache := ∅ }

/-- The environment of that tick: the refresh is triggered and the list
endpoint answers 401, so the source fails. -/
def c8wenv : TickEnv :=
  { listing := Except.ok [], net := env401, now := 0,
    display := Except.ok () }

end Wallsplash

/-! Helper lemmas. -/

namespace Wallsplash

theorem Unsplash.Client.refresh_ok_eq (st : Unsplash.Client)
    (cache cache2 : Finset String) (now : Nat) (env : NetEnv) (len : Nat)
    (hs : st.needsRefresh now = true)
    (hd : download_images env cache = (Except.ok len, cache2)) :
    st.next_image_path cache now env =
      Unsplash.Client.servePath
        { st with cached := true, total := len, timestamp := now }
        cache2 true := by
  unfold Unsplash.Client.next_image_path
  rw [hs, hd]
  rfl

theorem Unsplash.Client.refresh_err_eq (st : Unsplash.Client)
    (cache cache2 : Finset String) (now : Nat) (env : NetEnv) (e : BoxError)
    (hs : st.needsRefresh now = true)
    (hd : download_images env cache = (Except.error e, cache2)) :
    st.next_image_path cache now env =
      { result := Except.error e, state := { st with cached := false },
        cache := cache2, refreshed := true } := by
  unfold Unsplash.Client.next_image_path
  rw [hs, hd]
  rfl

theorem Unsplash.Client.fast_eq (st : Unsplash.Client)
    (cache : Finset String) (now : Nat) (env : NetEnv)
    (hc : st.cached = true) (hf : now - st.timestamp < st.period) :
    st.next_image_path cache now env = Unsplash.Client.servePath st cache false := by
  have hr : st.needsRefresh now = false := by
    simp [Unsplash.Client.needsRefresh, hc, Nat.not_le.mpr hf]
  unfold Unsplash.Client.next_image_path
  rw [hr]
  simp

theorem Unsplash.Client.servePath_pos (st : Unsplash.Client)
    (cache : Finset String) (r : Bool) (hM : 0 < st.total) :
    Unsplash.Client.servePath st cache r =
      { result := Except.ok (joinPath st.dir (cacheName st.usedIdx)),
        state := { st with curr := st.usedIdx + 1 },
        cache := cache, refreshed := r } := by
  simp [Unsplash.Client.servePath, hM]

theorem Unsplash.Client.servePath_zero (st : Unsplash.Client)
    (cache : Finset String) (r : Bool) (h0 : st.total = 0) :
    Unsplash.Client.servePath st cache r =
      { result := Except.error (BoxError.lib WallsplashError.UnsplashNoImage),
        state := st, cache := cache, refreshed := r } := by
  simp [Unsplash.Client.servePath, h0]

theorem Fetchers.UnsplashFetcher.refresh_ok_eqF (st : Fetchers.UnsplashFetcher)
    (cache cache2 : Finset String) (now : Nat) (env : NetEnv) (len : Nat)
    (hs : st.needsRefresh now = true)
    (hd : download_images env cache = (Except.ok len, cache2)) :
    st.next_image_path cache now env =
      Fetchers.UnsplashFetcher.servePath
        { st with cached := true, total := len, timestamp := now }
        cache2 true := by
  unfold Fetchers.UnsplashFetcher.next_image_path
  rw [hs, hd]
  rfl

theorem Fetchers.UnsplashFetcher.refresh_err_eqF (st : Fetchers.UnsplashFetcher)
    (cache cache2 : Finset String) (now : Nat) (env : NetEnv) (e : BoxError)
    (hs : st.needsRefresh now = true)
    (hd : download_images env cache = (Except.error e, cache2)) :
    st.next_image_path cache now env =
      { result := Except.error e, state := { st with cached := false },
        cache := cache2, refreshed := true } := by
  unfold Fetchers.UnsplashFetcher.next_image_path
  rw [hs, hd]
  rfl

theorem Fetchers.UnsplashFetcher.fast_eqF (st : Fetchers.UnsplashFetcher)
    (cache : Finset String) (now : Nat) (env : NetEnv)
    (hc : st.cached = true) (hf : now - st.timestamp < st.refresh) :
    st.next_image_path cache now env =
      Fetchers.UnsplashFetcher.servePath st cache false := by
  have hr : st.needsRefresh now = false := by
    simp [Fetchers.UnsplashFetcher.needsRefresh, hc, Nat.not_le.mpr hf]
  unfold Fetchers.UnsplashFetcher.next_image_path
  rw [hr]
  simp

theorem Fetchers.UnsplashFetcher.servePath_posF (st : Fetchers.UnsplashFetcher)
    (cache : Finset String) (r : Bool) (hM : 0 < st.total) :
    Fetchers.UnsplashFetcher.servePath st cache r =
      { result := Except.ok (joinPath st.dir (cacheName st.usedIdx)),
        state := { st with next := st.usedIdx + 1 },
        cache := cache, refreshed := r } := by
  simp [Fetchers.UnsplashFetcher.servePath, hM]

theorem Fetchers.UnsplashFetcher.servePath_zeroF (st : Fetchers.UnsplashFetcher)
    (cache : Finset String) (r : Bool) (h0 : st.total = 0) :
    Fetchers.UnsplashFetcher.servePath st cache r =
      { result := Except.error (BoxError.lib WallsplashError.UnsplashNoImage),
        state := st, cache := cache, refreshed := r } := by
  simp [Fetchers.UnsplashFetcher.servePath, h0]

end Wallsplash

/-! Claim theorems: C2, C4, C9, C10. -/

namespace Wallsplash

/-- Claim C2 (settled as a code bug): when the configured directory
enumerates to zero regular files, both local fetchers leave the cursor
unchanged, but `lib.rs`'s `LocalFetcher::next_image_path` (line 82)
returns `WallsplashError::UnsplashNoImage` — the Unsplash error — while
the claim (and `errors.rs`'s own taxonomy, whose `LocalNoImage` variant
exists for exactly this case and which the identical function in
`fetchers.rs`, line 62, does return) says `NoLocalImage`. -/
theorem local_empty_dir_error (st : Lib.LocalFetcher)
    (stF : Fetchers.LocalFetcher) (entries : List DirEntry)
    (h : imageFiles entries = []) :
    Lib.LocalFetcher.next_image_path st (Except.ok entries) =
      (Except.error (BoxError.lib WallsplashError.UnsplashNoImage), st)
    ∧ Fetchers.LocalFetcher.next_image_path stF (Except.ok entries) =
      (Except.error (BoxError.lib WallsplashError.LocalNoImage), stF) := by
  constructor
  · simp [Lib.LocalFetcher.next_image_path, h]
  · simp [Fetchers.LocalFetcher.next_image_path, h]

/-- Witness for `local_empty_dir_error`: a directory whose only entry is a
subdirectory (not a regular file). -/
theorem local_empty_dir_error_witness :
    imageFiles [{ path := "/imgs/sub", isFile := false }] = []
    ∧ Lib.LocalFetcher.next_image_path { dir := "/imgs", curr := 3 }
        (Except.ok [{ path := "/imgs/sub", isFile := false }]) =
      (Except.error (BoxError.lib WallsplashError.UnsplashNoImage),
        { dir := "/imgs", curr := 3 })
    ∧ Fetchers.LocalFetcher.next_image_path { dir := "/imgs", next := 3 }
        (Except.ok [{ path := "/imgs/sub", isFile := false }]) =
      (Except.error (BoxError.lib WallsplashError.LocalNoImage),
        { dir := "/imgs", next := 3 }) := by
  refine ⟨by decide, ?_⟩
  exact local_empty_dir_error { dir := "/imgs", curr := 3 }
    { dir := "/imgs", next := 3 }
    [{ path := "/imgs/sub", isFile := false }] (by decide)

/-- Claim C4: when a refresh cycle is triggered and fails (as it does,
with `UnsplashAPIFail`, when the list endpoint returns a non-success
status such as 401), `next_image_path` sets `cached` to `false`,
propagates the error without serving any cached path, leaves the
timestamp (and cursor and total) unchanged, and the resulting state
triggers the refresh again on every subsequent call. -/
theorem client_refresh_failure (st : Unsplash.Client)
    (cache cache2 : Finset String) (now : Nat) (env : NetEnv) (e : BoxError)
    (hs : st.needsRefresh now = true)
    (hd : download_images env cache = (Except.error e, cache2)) :
    st.next_image_path cache now env =
      { result := Except.error e, state := { st with cached := false },
        cache := cache2, refreshed := true }
    ∧ ({ st with cached := false } : Unsplash.Client).timestamp = st.timestamp
    ∧ ({ st with cached := false } : Unsplash.Client).curr = st.curr
    ∧ ({ st with cached := false } : Unsplash.Client).total = st.total
    ∧ ∀ now2, ({ st with cached := false } : Unsplash.Client).needsRefresh now2
        = true := by
  refine ⟨Unsplash.Client.refresh_err_eq st cache cache2 now env e hs hd,
    rfl, rfl, rfl, ?_⟩
  intro now2
  simp [Unsplash.Client.needsRefresh]

/-- Witness for `client_refresh_failure`: a warm client whose refresh
interval has elapsed, against a list endpoint answering HTTP 401. -/
theorem client_refresh_failure_witness :
    c4st.needsRefresh 250 = true
    ∧ download_images env401 ∅ =
        (Except.error (BoxError.lib WallsplashError.UnsplashAPIFail), ∅)
    ∧ c4st.next_image_path ∅ 250 env401 =
        { result := Except.error (BoxError.lib WallsplashError.UnsplashAPIFail),
          state := { c4st with cached := false },
          cache := ∅, refreshed := true }
    ∧ ∀ now2, ({ c4st with cached := false } : Unsplash.Client).needsRefresh now2
        = true :=
  ⟨by decide, by decide,
    (client_refresh_failure c4st ∅ ∅ 250 env401
      (BoxError.lib WallsplashError.UnsplashAPIFail)
      (by decide) (by decide)).1,
    (client_refresh_failure c4st ∅ ∅ 250 env401
      (BoxError.lib WallsplashError.UnsplashAPIFail)
      (by decide) (by decide)).2.2.2.2⟩

/-- Claim C9: in both remote fetchers, when a triggered refresh completes
successfully but yields zero usable cached images, the call fails with
`NoRemoteImage` (`UnsplashNoImage`) and the cursor is not advanced. -/
theorem remote_zero_total_no_image (st : Unsplash.Client)
    (stF : Fetchers.UnsplashFetcher)
    (cache cacheF cache2 cache2F : Finset String) (now nowF : Nat)
    (env envF : NetEnv)
    (hs : st.needsRefresh now = true)
    (hd : download_images env cache = (Except.ok 0, cache2))
    (hsF : stF.needsRefresh nowF = true)
    (hdF : download_images envF cacheF = (Except.ok 0, cache2F)) :
    ((st.next_image_path cache now env).result =
        Except.error (BoxError.lib WallsplashError.UnsplashNoImage)
      ∧ (st.next_image_path cache now env).state.curr = st.curr
      ∧ (st.next_image_path cache now env).state.total = 0)
    ∧ ((stF.next_image_path cacheF nowF envF).result =
        Except.error (BoxError.lib WallsplashError.UnsplashNoImage)
      ∧ (stF.next_image_path cacheF nowF envF).state.next = stF.next
      ∧ (stF.next_image_path cacheF nowF envF).state.total = 0) := by
  have h1 := Unsplash.Client.refresh_ok_eq st cache cache2 now env 0 hs hd
  have h2 := Fetchers.UnsplashFetcher.refresh_ok_eqF stF cacheF cache2F nowF
    envF 0 hsF hdF
  rw [Unsplash.Client.servePath_zero _ _ _ rfl] at h1
  rw [Fetchers.UnsplashFetcher.servePath_zeroF _ _ _ rfl] at h2
  rw [h1, h2]
  exact ⟨⟨rfl, rfl, rfl⟩, ⟨rfl, rfl, rfl⟩⟩

/-- Witness for `remote_zero_total_no_image`: fresh fetchers against an
API returning one photo whose binary is image/png, so nothing is kept. -/
theorem remote_zero_total_no_image_witness :
    c9st.needsRefresh 5 = true
    ∧ download_images envPng ∅ = (Except.ok 0, ∅)
    ∧ (c9st.next_image_path ∅ 5 envPng).result =
        Except.error (BoxError.lib WallsplashError.UnsplashNoImage)
    ∧ (c9st.next_image_path ∅ 5 envPng).state.curr = c9st.curr
    ∧ (c9stF.next_image_path ∅ 5 envPng).result =
        Except.error (BoxError.lib WallsplashError.UnsplashNoImage)
    ∧ (c9stF.next_image_path ∅ 5 envPng).state.next = c9stF.next := by
  have h := remote_zero_total_no_image c9st c9stF ∅ ∅ ∅ ∅ 5 5 envPng envPng
    (by decide) (by decide) (by decide) (by decide)
  exact ⟨by decide, by decide, h.1.1, h.1.2.1, h.2.1, h.2.2.1⟩

/-- Claim C10: in both remote fetchers, a refresh that succeeds with zero
usable images sets `cached = true` and resets the timestamp, so every
subsequent call made before the refresh interval elapses performs no
refresh cycle (no network call), fails with `NoRemoteImage`, and leaves
the state untouched. -/
theorem remote_empty_refresh_sticky (st : Unsplash.Client)
    (stF : Fetchers.UnsplashFetcher)
    (cache cacheF cache2 cache2F : Finset String) (now nowF : Nat)
    (env envF : NetEnv)
    (hs : st.needsRefresh now = true)
    (hd : download_images env cache = (Except.ok 0, cache2))
    (hsF : stF.needsRefresh nowF = true)
    (hdF : download_images envF cacheF = (Except.ok 0, cache2F)) :
    ((st.next_image_path cache now env).state.cached = true
      ∧ (st.next_image_path cache now env).state.timestamp = now
      ∧ (st.next_image_path cache now env).state.total = 0
      ∧ ∀ now2 env2 cache3, now2 - now < st.period →
          ((st.next_image_path cache now env).state.next_image_path
              cache3 now2 env2).refreshed = false
          ∧ ((st.next_image_path cache now env).state.next_image_path
              cache3 now2 env2).result =
            Except.error (BoxError.lib WallsplashError.UnsplashNoImage)
          ∧ ((st.next_image_path cache now env).state.next_image_path
              cache3 now2 env2).state = (st.next_image_path cache now env).state)
    ∧ ((stF.next_image_path cacheF nowF envF).state.cached = true
      ∧ (stF.next_image_path cacheF nowF envF).state.timestamp = nowF
      ∧ (stF.next_image_path cacheF nowF envF).state.total = 0
      ∧ ∀ now2 env2 cache3, now2 - nowF < stF.refresh →
          ((stF.next_image_path cacheF nowF envF).state.next_image_path
              cache3 now2 env2).refreshed = false
          ∧ ((stF.next_image_path cacheF nowF envF).state.next_image_path
              cache3 now2 env2).result =
            Except.error (BoxError.lib WallsplashError.UnsplashNoImage)
          ∧ ((stF.next_image_path cacheF nowF envF).state.next_image_path
              cache3 now2 env2).state
            = (stF.next_image_path cacheF nowF envF).state) := by
  have h1 := Unsplash.Client.refresh_ok_eq st cache cache2 now env 0 hs hd
  have h2 := Fetchers.UnsplashFetcher.refresh_ok_eqF stF cacheF cache2F nowF
    envF 0 hsF hdF
  rw [Unsplash.Client.servePath_zero _ _ _ rfl] at h1
  rw [Fetchers.UnsplashFetcher.servePath_zeroF _ _ _ rfl] at h2
  rw [h1, h2]
  refine ⟨⟨rfl, rfl, rfl, ?_⟩, rfl, rfl, rfl, ?_⟩
  · intro now2 env2 cache3 hfr
    have hfast := Unsplash.Client.fast_eq
      { st with cached := true, total := 0, timestamp := now }
      cache3 now2 env2 rfl hfr
    rw [Unsplash.Client.servePath_zero _ _ _ rfl] at hfast
    rw [hfast]
    exact ⟨rfl, rfl, rfl⟩
  · intro now2 env2 cache3 hfr
    have hfast := Fetchers.UnsplashFetcher.fast_eqF
      { stF with cached := true, total := 0, timestamp := nowF }
      cache3 now2 env2 rfl hfr
    rw [Fetchers.UnsplashFetcher.servePath_zeroF _ _ _ rfl] at hfast
    rw [hfast]
    exact ⟨rfl, rfl, rfl⟩

/-- Witness for `remote_empty_refresh_sticky`: after the empty refresh at
time 5, a call at time 50 (interval 100 not elapsed) is answered with
`UnsplashNoImage` with no refresh cycle. -/
theorem remote_empty_refresh_sticky_witness :
    (c9st.next_image_path ∅ 5 envPng).state.cached = true
    ∧ (50 - 5 < c9st.period)
    ∧ (((c9st.next_image_path ∅ 5 envPng).state.next_image_path
          ∅ 50 env401).refreshed = false
        ∧ ((c9st.next_image_path ∅ 5 envPng).state.next_image_path
          ∅ 50 env401).result =
          Except.error (BoxError.lib WallsplashError.UnsplashNoImage))
    ∧ (((c9stF.next_image_path ∅ 5 envPng).state.next_image_path
          ∅ 50 env401).refreshed = false
        ∧ ((c9stF.next_image_path ∅ 5 envPng).state.next_image_path
          ∅ 50 env401).result =
          Except.error (BoxError.lib WallsplashError.UnsplashNoImage)) := by
  have h := remote_empty_refresh_sticky c9st c9stF ∅ ∅ ∅ ∅ 5 5 envPng envPng
    (by decide) (by decide) (by decide) (by decide)
  have h1 := h.1.2.2.2 50 env401 ∅ (by decide)
  have h2 := h.2.2.2.2 50 env401 ∅ (by decide)
  exact ⟨h.1.1, by decide, ⟨h1.1, h1.2.1⟩, ⟨h2.1, h2.2.1⟩⟩

end Wallsplash

/-! Claim C6: local round-robin. -/

namespace Wallsplash

theorem Lib.local_step (st : Lib.LocalFetcher) (entries : List DirEntry)
    (hlt : st.curr < (imageFiles entries).length) :
    Lib.LocalFetcher.next_image_path st (Except.ok entries) =
      (Except.ok ((imageFiles entries).getD st.curr ""),
        { st with curr := st.curr + 1 }) := by
  have hpos : (imageFiles entries).length > 0 := by omega
  have hge : ¬ st.curr ≥ (imageFiles entries).length := by omega
  simp [Lib.LocalFetcher.next_image_path, hpos, hge]

theorem Lib.local_step_wrap (st : Lib.LocalFetcher) (entries : List DirEntry)
    (hpos : 0 < (imageFiles entries).length)
    (hge : st.curr ≥ (imageFiles entries).length) :
    Lib.LocalFetcher.next_image_path st (Except.ok entries) =
      (Except.ok ((imageFiles entries).getD 0 ""), { st with curr := 1 }) := by
  simp [Lib.LocalFetcher.next_image_path, hpos, hge]

theorem Fetchers.local_stepF (st : Fetchers.LocalFetcher)
    (entries : List DirEntry) (hpos : 0 < (imageFiles entries).length) :
    Fetchers.LocalFetcher.next_image_path st (Except.ok entries) =
      (Except.ok ((imageFiles entries).getD
          (st.next % (imageFiles entries).length) ""),
        { st with next := st.next % (imageFiles entries).length + 1 }) := by
  simp [Fetchers.LocalFetcher.next_image_path, hpos]

theorem localRun_eq (dir : String) (entries : List DirEntry) :
    ∀ k, k ≤ (imageFiles entries).length →
      localRun (Lib.LocalFetcher.new dir) (Except.ok entries) k =
        { dir := dir, curr := k } := by
  intro k
  induction k with
  | zero => intro _; rfl
  | succ k ih =>
    intro hk
    have hr := ih (by omega)
    show (Lib.LocalFetcher.next_image_path
      (localRun (Lib.LocalFetcher.new dir) (Except.ok entries) k)
      (Except.ok entries)).2 = _
    rw [hr, Lib.local_step { dir := dir, curr := k } entries
      (show k < (imageFiles entries).length by omega)]

theorem flocalRun_eq (dir : String) (entries : List DirEntry)
    (hpos : 0 < (imageFiles entries).length) :
    ∀ k, k ≤ (imageFiles entries).length →
      flocalRun (Fetchers.LocalFetcher.new dir) (Except.ok entries) k =
        { dir := dir, next := k } := by
  intro k
  induction k with
  | zero => intro _; rfl
  | succ k ih =>
    intro hk
    have hr := ih (by omega)
    show (Fetchers.LocalFetcher.next_image_path
      (flocalRun (Fetchers.LocalFetcher.new dir) (Except.ok entries) k)
      (Except.ok entries)).2 = _
    rw [hr, Fetchers.local_stepF { dir := dir, next := k } entries hpos]
    have : k % (imageFiles entries).length = k := Nat.mod_eq_of_lt (by omega)
    simp [this]

/-- Claim C6: over a fixed non-empty directory listing of size N, both
local fetchers, starting from cursor 0, return the file at listing index
k on the (k+1)-th call for k < N, and return the file at listing index 0
again on the (N+1)-th call (round-robin). -/
theorem local_round_robin (dir dirF : String) (entries : List DirEntry)
    (h : 0 < (imageFiles entries).length) :
    localVisit (Lib.LocalFetcher.new dir) (Except.ok entries)
        (imageFiles entries).length
      = Except.ok ((imageFiles entries).getD 0 "")
    ∧ (∀ k, k < (imageFiles entries).length →
        localVisit (Lib.LocalFetcher.new dir) (Except.ok entries) k
          = Except.ok ((imageFiles entries).getD k ""))
    ∧ flocalVisit (Fetchers.LocalFetcher.new dirF) (Except.ok entries)
        (imageFiles entries).length
      = Except.ok ((imageFiles entries).getD 0 "")
    ∧ (∀ k, k < (imageFiles entries).length →
        flocalVisit (Fetchers.LocalFetcher.new dirF) (Except.ok entries) k
          = Except.ok ((imageFiles entries).getD k "")) := by
  refine ⟨?_, ?_, ?_, ?_⟩
  · unfold localVisit
    rw [localRun_eq dir entries _ (le_refl _),
      Lib.local_step_wrap { dir := dir, curr := (imageFiles entries).length }
        entries h (le_refl _)]
  · intro k hk
    unfold localVisit
    rw [localRun_eq dir entries k (by omega),
      Lib.local_step { dir := dir, curr := k } entries hk]
  · unfold flocalVisit
    rw [flocalRun_eq dirF entries h _ (le_refl _),
      Fetchers.local_stepF { dir := dirF, next := (imageFiles entries).length }
        entries h, Nat.mod_self]
  · intro k hk
    unfold flocalVisit
    rw [flocalRun_eq dirF entries h k (by omega),
      Fetchers.local_stepF { dir := dirF, next := k } entries h,
      Nat.mod_eq_of_lt hk]

/-- Witness for `local_round_robin`: a two-file directory; the third call
returns the first file again. -/
theorem local_round_robin_witness :
    0 < (imageFiles [{ path := "/imgs/a.jpg", isFile := true },
        { path := "/imgs/b.jpg", isFile := true }]).length
    ∧ localVisit (Lib.LocalFetcher.new "/imgs")
        (Except.ok [{ path := "/imgs/a.jpg", isFile := true },
          { path := "/imgs/b.jpg", isFile := true }]) 2
      = Except.ok "/imgs/a.jpg"
    ∧ flocalVisit (Fetchers.LocalFetcher.new "/imgs")
        (Except.ok [{ path := "/imgs/a.jpg", isFile := true },
          { path := "/imgs/b.jpg", isFile := true }]) 2
      = Except.ok "/imgs/a.jpg" := by
  have h := local_round_robin "/imgs" "/imgs"
    [{ path := "/imgs/a.jpg", isFile := true },
      { path := "/imgs/b.jpg", isFile := true }] (by decide)
  exact ⟨by decide, h.1, h.2.2.1⟩

end Wallsplash

/-! Claims C1 and C8: the rotator driver loop. -/

namespace Wallsplash

theorem runTick_char (s : LoopState) (env : TickEnv) :
    runTick s env =
      match tickSource s env with
      | Except.error _ =>
        Except.ok { tickState s env with do_local := !s.do_local }
      | Except.ok _ =>
        match env.display with
        | Except.error e => Except.error e
        | Except.ok _ =>
          Except.ok { tickState s env with do_local := !s.do_local } := by
  cases hdl : s.do_local with
  | true =>
    cases hsrc : (s.l.next_image_path env.listing).1 with
    | error e => simp [runTick, tickSource, tickState, hdl, hsrc]
    | ok p =>
      cases hdisp : env.display <;>
        simp [runTick, tickSource, tickState, hdl, hsrc, hdisp]
  | false =>
    cases hsrc : (s.client.next_image_path s.cache env.now env.net).result with
    | error e => simp [runTick, tickSource, tickState, hdl, hsrc]
    | ok p =>
      cases hdisp : env.display <;>
        simp [runTick, tickSource, tickState, hdl, hsrc, hdisp]

/-- Claim C1 (counterexample): on a tick whose source returns a path
successfully and whose display command invocation fails, the loop does
not continue — `run` returns the error (the `?` on `lib.rs` line 103
propagates it), contradicting the claim that no single failed tick
terminates the loop. -/
theorem run_tick_display_failure_cex :
    ¬ ∃ s2, runTick c1s c1env = Except.ok s2 := by
  rintro ⟨s2, hs2⟩
  have h : runTick c1s c1env =
      Except.error (BoxError.other "feh: spawn failed") := by decide
  rw [h] at hs2
  exact Except.noConfusion hs2

/-- Claim C1 (amended): a tick on which the source fails is logged and
the loop always continues (and toggles); but a failure of the display
command invocation on a tick whose source succeeded is not caught: `run`
returns exactly then, terminating the loop with that error. -/
theorem run_tick_termination (s : LoopState) (env : TickEnv) :
    (∀ e, runTick s env = Except.error e ↔
      ((tickSource s env).isOk = true ∧ env.display = Except.error e))
    ∧ ((tickSource s env).isOk = false →
        ∃ s2, runTick s env = Except.ok s2 ∧ s2.do_local = !s.do_local) := by
  rw [runTick_char s env]
  constructor
  · intro e
    cases hsrc : tickSource s env with
    | error e2 => simp [Except.isOk, Except.toBool, hsrc]
    | ok p =>
      cases hdisp : env.display with
      | error e3 => simp [Except.isOk, Except.toBool, hdisp]
      | ok u => simp [Except.isOk, Except.toBool, hdisp]
  · intro h
    cases hsrc : tickSource s env with
    | error e2 => exact ⟨_, rfl, rfl⟩
    | ok p => rw [hsrc] at h; simp [Except.isOk, Except.toBool] at h

/-- Witness for `run_tick_termination`: a tick with an empty local
directory; the source fails, the loop continues and toggles to the
remote source. -/
theorem run_tick_termination_witness :
    (tickSource c1ws c1wenv).isOk = false
    ∧ ∃ s2, runTick c1ws c1wenv = Except.ok s2
        ∧ s2.do_local = !c1ws.do_local :=
  ⟨by decide, (run_tick_termination c1ws c1wenv).2 (by decide)⟩

/-- Claim C8 (counterexample): the toggle is not unconditional — on a
tick whose remote source succeeds but whose display command invocation
fails, the loop terminates and no toggled successor state exists. -/
theorem rotator_toggle_cex :
    ¬ ∃ s2, runTick c8s c8env = Except.ok s2
        ∧ s2.do_local = !(c8s.do_local) := by
  rintro ⟨s2, hs2, _⟩
  have h : runTick c8s c8env =
      Except.error (BoxError.other "feh: not found") := by decide
  rw [h] at hs2
  exact Except.noConfusion hs2

/-- Claim C8 (amended): the rotator starts in `UseLocal`
(`do_local = true`), and every tick that completes — source failure
included — toggles `do_local` exactly once; only a tick aborted by a
display-command invocation failure produces no successor state (the loop
terminates). -/
theorem rotator_toggle (cfg : Config) (tmpdir : String) (now : Nat) :
    (runInit cfg tmpdir now).do_local = true
    ∧ ∀ s env s2, runTick s env = Except.ok s2 →
        s2.do_local = !s.do_local := by
  refine ⟨rfl, ?_⟩
  intro s env s2 h
  rw [runTick_char s env] at h
  cases hsrc : tickSource s env with
  | error e2 =>
    rw [hsrc] at h
    cases h
    rfl
  | ok p =>
    rw [hsrc] at h
    cases hdisp : env.display with
    | error e3 => rw [hdisp] at h; exact Except.noConfusion h
    | ok u =>
      rw [hdisp] at h
      cases h
      rfl

/-- Witness for `rotator_toggle`: a completed tick (remote source fails
with `UnsplashAPIFail`, which is logged) toggles `do_local` from `false`
back to `true`. -/
theorem rotator_toggle_witness :
    (runInit cfg0 "/tmpu" 0).do_local = true
    ∧ runTick c8ws c8wenv =
        Except.ok { tickState c8ws c8wenv with do_local := true }
    ∧ ({ tickState c8ws c8wenv with do_local := true } : LoopState).do_local
        = !c8ws.do_local :=
  ⟨(rotator_toggle cfg0 "/tmpu" 0).1,
    by decide,
    (rotator_toggle cfg0 "/tmpu" 0).2 c8ws c8wenv
      { tickState c8ws c8wenv with do_local := true } (by decide)⟩

end Wallsplash

/-! Claim C7: the warm fast path. -/

namespace Wallsplash

/-- Claim C7 (counterexample): a warm, fresh `unsplash.rs` client with
`curr = 5` and `total = 3` performs no refresh but serves the file at
index 0 (the code resets an out-of-range cursor to 0, `unsplash.rs`
lines 76-78), not the file at index `curr mod total = 2` the claim
names. -/
theorem remote_fast_path_cex :
    (c7st.next_image_path ∅ 10 env401).refreshed = false
    ∧ (c7st.next_image_path ∅ 10 env401).result =
        Except.ok (joinPath "/tmp/u" (cacheName 0))
    ∧ (c7st.next_image_path ∅ 10 env401).result ≠
        Except.ok (joinPath "/tmp/u" (cacheName (c7st.curr % c7st.total))) := by
  decide

/-- Claim C7 (amended): a warm fetcher whose refresh interval has not
elapsed and whose cache is non-empty performs no refresh cycle (no
network call, the environment is untouched) and serves a cached file,
advancing the cursor to the served index plus one.  The served index is
`curr` reset to 0 when out of range for `unsplash.rs`'s `Client`
(`usedIdx`), and `next mod total` for `fetchers.rs`'s
`UnsplashFetcher`. -/
theorem remote_fast_path (st : Unsplash.Client)
    (stF : Fetchers.UnsplashFetcher) (cache cacheF : Finset String)
    (now nowF : Nat) (env envF : NetEnv)
    (hc : st.cached = true) (hf : now - st.timestamp < st.period)
    (hM : 0 < st.total)
    (hcF : stF.cached = true) (hfF : nowF - stF.timestamp < stF.refresh)
    (hMF : 0 < stF.total) :
    st.next_image_path cache now env =
      { result := Except.ok (joinPath st.dir (cacheName st.usedIdx)),
        state := { st with curr := st.usedIdx + 1 }, cache := cache,
        refreshed := false }
    ∧ stF.next_image_path cacheF nowF envF =
      { result :=
          Except.ok (joinPath stF.dir (cacheName (stF.next % stF.total))),
        state := { stF with next := stF.next % stF.total + 1 },
        cache := cacheF, refreshed := false } := by
  constructor
  · rw [Unsplash.Client.fast_eq st cache now env hc hf,
      Unsplash.Client.servePath_pos st cache false hM]
  · rw [Fetchers.UnsplashFetcher.fast_eqF stF cacheF nowF envF hcF hfF,
      Fetchers.UnsplashFetcher.servePath_posF stF cacheF false hMF]
    rfl

/-- Witness for `remote_fast_path`: the warm client `c4st` (cursor 2,
5 cached files) serves `2.jpg`, and the fetcher `c7stF` (cursor 7,
3 cached files) serves `1.jpg`; neither refreshes. -/
theorem remote_fast_path_witness :
    c4st.cached = true ∧ 10 - c4st.timestamp < c4st.period ∧ 0 < c4st.total
    ∧ c4st.next_image_path ∅ 10 env401 =
      { result := Except.ok (joinPath c4st.dir (cacheName c4st.usedIdx)),
        state := { c4st with curr := c4st.usedIdx + 1 }, cache := ∅,
        refreshed := false }
    ∧ c7stF.next_image_path ∅ 10 env401 =
      { result :=
          Except.ok (joinPath c7stF.dir (cacheName (c7stF.next % c7stF.total))),
        state := { c7stF with next := c7stF.next % c7stF.total + 1 },
        cache := ∅, refreshed := false } := by
  have h := remote_fast_path c4st c7stF ∅ ∅ 10 10 env401 env401
    (by decide) (by decide) (by decide) (by decide) (by decide) (by decide)
  exact ⟨by decide, by decide, by decide, h.1, h.2⟩

end Wallsplash

/-! Claim C3: the cache invariant. -/

namespace Wallsplash

theorem downloadLoop_step (env : NetEnv) (p : Photo) (rest : List Photo)
    (pos idx : Nat) (cache : Finset String) :
    downloadLoop env (p :: rest) pos idx cache =
      match env.imgRes pos with
      | Except.error e => (Except.error e, cache)
      | Except.ok resp =>
        match resp.contentType with
        | none => downloadLoop env rest (pos + 1) idx cache
        | some m =>
          if m.isImageJpeg then
            match resp.createRes with
            | Except.error e => (Except.error e, cache)
            | Except.ok _ =>
              match resp.copyRes with
              | Except.error e => (Except.error e, insert (cacheName idx) cache)
              | Except.ok _ =>
                downloadLoop env rest (pos + 1) (idx + 1)
                  (insert (cacheName idx) cache)
          else
            downloadLoop env rest (pos + 1) idx cache := rfl

theorem downloadLoop_mem (env : NetEnv) (photos : List Photo) :
    ∀ (pos idx n : Nat) (cache cache2 : Finset String),
      downloadLoop env photos pos idx cache = (Except.ok n, cache2) →
      idx ≤ n ∧ (∀ i, idx ≤ i → i < n → cacheName i ∈ cache2)
        ∧ cache ⊆ cache2 := by
  induction photos with
  | nil =>
    intro pos idx n cache cache2 h
    rw [downloadLoop] at h
    simp only [Prod.mk.injEq, Except.ok.injEq] at h
    obtain ⟨rfl, rfl⟩ := h
    exact ⟨le_rfl, fun i hi1 hi2 => absurd hi2 (by omega),
      Finset.Subset.refl cache⟩
  | cons p rest ih =>
    intro pos idx n cache cache2 h
    rw [downloadLoop_step] at h
    split at h
    · simp at h
    · split at h
      · exact ih (pos + 1) idx n cache cache2 h
      · split at h
        · split at h
          · simp at h
          · split at h
            · simp at h
            · obtain ⟨h1, h2, h3⟩ := ih (pos + 1) (idx + 1) n _ cache2 h
              refine ⟨by omega, ?_,
                fun x hx => h3 (Finset.mem_insert_of_mem hx)⟩
              intro i hi1 hi2
              rcases eq_or_lt_of_le hi1 with rfl | hlt
              · exact h3 (Finset.mem_insert_self _ _)
              · exact h2 i (by omega) hi2
        · exact ih (pos + 1) idx n cache cache2 h

theorem download_images_mem (env : NetEnv) (cache : Finset String)
    (n : Nat) (cache2 : Finset String)
    (h : download_images env cache = (Except.ok n, cache2)) :
    (∀ i, i < n → cacheName i ∈ cache2) ∧ cache ⊆ cache2 := by
  unfold download_images at h
  split at h
  · simp at h
  · split at h
    · simp at h
    · split at h
      · split at h
        · simp at h
        · have := downloadLoop_mem env _ 0 0 n cache cache2 h
          exact ⟨fun i hi => this.2.1 i (Nat.zero_le i) hi, this.2.2⟩
      · simp at h

theorem Unsplash.Client.no_refresh_eq (st : Unsplash.Client)
    (cache : Finset String) (now : Nat) (env : NetEnv)
    (hr : st.needsRefresh now = false) :
    st.next_image_path cache now env =
      Unsplash.Client.servePath st cache false := by
  unfold Unsplash.Client.next_image_path
  rw [hr]
  simp

theorem Fetchers.UnsplashFetcher.no_refresh_eqF (st : Fetchers.UnsplashFetcher)
    (cache : Finset String) (now : Nat) (env : NetEnv)
    (hr : st.needsRefresh now = false) :
    st.next_image_path cache now env =
      Fetchers.UnsplashFetcher.servePath st cache false := by
  unfold Fetchers.UnsplashFetcher.next_image_path
  rw [hr]
  simp

/-- Claim C3 (counterexample): from a fresh client (whose trivially-true
invariant holds), a single `next_image_path` call against a list endpoint
that succeeds with an empty batch yields a state with `cached = true` and
`total = 0`, violating the claimed invariant's `total > 0` part. -/
theorem client_cache_inv_cex :
    ¬ Unsplash.Client.cacheInv
        (c9st.next_image_path ∅ 5 envEmptyList).state
        (c9st.next_image_path ∅ 5 envEmptyList).cache := by
  intro h
  exact absurd (h (by decide)).1 (by decide)

/-- Claim C3 (amended): both remote fetchers preserve — and establish at
construction — the weakened invariant `cached == true → every index in
[0, total) corresponds to an existing cache file <i>.jpg`; the claimed
`total > 0` part does not hold, since a successful refresh that keeps
zero images still sets `cached = true`. -/
theorem cache_inv_weak_preserved :
    (∀ (st : Unsplash.Client) (cache : Finset String) (now : Nat)
        (env : NetEnv),
      st.cacheInvW cache →
      (st.next_image_path cache now env).state.cacheInvW
        (st.next_image_path cache now env).cache)
    ∧ (∀ token limit period dir now0,
        (Unsplash.Client.new token limit period dir now0).cacheInvW ∅)
    ∧ (∀ (stF : Fetchers.UnsplashFetcher) (cacheF : Finset String)
          (nowF : Nat) (envF : NetEnv),
        stF.cacheInvW cacheF →
        (stF.next_image_path cacheF nowF envF).state.cacheInvW
          (stF.next_image_path cacheF nowF envF).cache)
    ∧ (∀ token limit refresh dir now0 cache0,
        (Fetchers.UnsplashFetcher.new token limit refresh
          dir now0).cacheInvW cache0) := by
  refine ⟨?_, ?_, ?_, ?_⟩
  · intro st cache now env hInv
    cases hr : st.needsRefresh now with
    | false =>
      rw [Unsplash.Client.no_refresh_eq st cache now env hr]
      rcases Nat.eq_zero_or_pos st.total with h0 | hpos
      · rw [Unsplash.Client.servePath_zero st cache false h0]
        exact hInv
      · rw [Unsplash.Client.servePath_pos st cache false hpos]
        intro hc i hi
        exact hInv hc i hi
    | true =>
      rcases hdl : download_images env cache with ⟨res, cache2⟩
      cases res with
      | error e =>
        rw [Unsplash.Client.refresh_err_eq st cache cache2 now env e hr hdl]
        intro hc
        simp at hc
      | ok len =>
        have hmem := download_images_mem env cache len cache2 hdl
        rw [Unsplash.Client.refresh_ok_eq st cache cache2 now env len hr hdl]
        rcases Nat.eq_zero_or_pos len with h0 | hpos
        · rw [Unsplash.Client.servePath_zero _ _ _ h0]
          intro _ i hi
          exact absurd (h0 ▸ hi) (Nat.not_lt_zero i)
        · rw [Unsplash.Client.servePath_pos _ _ _ hpos]
          intro _ i hi
          exact hmem.1 i hi
  · intro token limit period dir now0
    intro hc
    simp [Unsplash.Client.new] at hc
  · intro stF cacheF nowF envF hInv
    cases hr : stF.needsRefresh nowF with
    | false =>
      rw [Fetchers.UnsplashFetcher.no_refresh_eqF stF cacheF nowF envF hr]
      rcases Nat.eq_zero_or_pos stF.total with h0 | hpos
      · rw [Fetchers.UnsplashFetcher.servePath_zeroF stF cacheF false h0]
        exact hInv
      · rw [Fetchers.UnsplashFetcher.servePath_posF stF cacheF false hpos]
        intro hc i hi
        exact hInv hc i hi
    | true =>
      rcases hdl : download_images envF cacheF with ⟨res, cache2⟩
      cases res with
      | error e =>
        rw [Fetchers.UnsplashFetcher.refresh_err_eqF stF cacheF cache2 nowF
          envF e hr hdl]
        intro hc
        simp at hc
      | ok len =>
        have hmem := download_images_mem envF cacheF len cache2 hdl
        rw [Fetchers.UnsplashFetcher.refresh_ok_eqF stF cacheF cache2 nowF
          envF len hr hdl]
        rcases Nat.eq_zero_or_pos len with h0 | hpos
        · rw [Fetchers.UnsplashFetcher.servePath_zeroF _ _ _ h0]
          intro _ i hi
          exact absurd (h0 ▸ hi) (Nat.not_lt_zero i)
        · rw [Fetchers.UnsplashFetcher.servePath_posF _ _ _ hpos]
          intro _ i hi
          exact hmem.1 i hi
  · intro token limit refresh dir now0 cache0
    intro hc
    simp [Fetchers.UnsplashFetcher.new] at hc

/-- Witness for `cache_inv_weak_preserved`: the weakened invariant holds
of a fresh client with an empty cache and is preserved by a call that
refreshes against the png-only endpoint. -/
theorem cache_inv_weak_preserved_witness :
    Unsplash.Client.cacheInvW c9st ∅
    ∧ Unsplash.Client.cacheInvW (c9st.next_image_path ∅ 5 envPng).state
        (c9st.next_image_path ∅ 5 envPng).cache
    ∧ Fetchers.UnsplashFetcher.cacheInvW c9stF ∅
    ∧ Fetchers.UnsplashFetcher.cacheInvW
        (c9stF.next_image_path ∅ 5 envPng).state
        (c9stF.next_image_path ∅ 5 envPng).cache :=
  ⟨fun hc => absurd hc (by decide),
    cache_inv_weak_preserved.1 c9st ∅ 5 envPng (fun hc => absurd hc (by decide)),
    fun hc => absurd hc (by decide),
    cache_inv_weak_preserved.2.2.1 c9stF ∅ 5 envPng
      (fun hc => absurd hc (by decide))⟩

end Wallsplash

/-! Claim C5: a fully successful refresh cycle and the round-robin that
follows. -/

namespace Wallsplash

theorem cacheNames_zero (s : Nat) : cacheNames s 0 = ∅ := by
  simp [cacheNames]

theorem cacheNames_succ (s n : Nat) :
    cacheNames s (n + 1) = insert (cacheName s) (cacheNames (s + 1) n) := by
  ext x
  simp only [cacheNames, Finset.mem_image, Finset.mem_range, Finset.mem_insert]
  constructor
  · rintro ⟨j, hj, rfl⟩
    cases j with
    | zero => exact Or.inl rfl
    | succ j2 =>
      exact Or.inr ⟨j2, by omega, congrArg cacheName (by omega)⟩
  · rintro (rfl | ⟨j, hj, rfl⟩)
    · exact ⟨0, by omega, rfl⟩
    · exact ⟨j + 1, by omega, congrArg cacheName (by omega)⟩

theorem downloadLoop_ok (env : NetEnv) (photos : List Photo) :
    ∀ (pos idx : Nat) (cache : Finset String),
      (∀ k, k < photos.length → ∃ ct, env.imgRes (pos + k) =
        Except.ok { contentType := ct, createRes := Except.ok (),
                    copyRes := Except.ok () }) →
      downloadLoop env photos pos idx cache =
        (Except.ok (idx + jpegCount env pos photos.length),
         cacheNames idx (jpegCount env pos photos.length) ∪ cache) := by
  induction photos with
  | nil =>
    intro pos idx cache hfetch
    simp [downloadLoop, jpegCount, cacheNames]
  | cons p rest ih =>
    intro pos idx cache hfetch
    obtain ⟨ct, hct⟩ := hfetch 0 (by simp)
    rw [Nat.add_zero] at hct
    have hrest : ∀ k, k < rest.length → ∃ c2, env.imgRes (pos + 1 + k) =
        Except.ok { contentType := c2, createRes := Except.ok (),
                    copyRes := Except.ok () } := by
      intro k hk
      obtain ⟨c2, hc2⟩ := hfetch (k + 1) (by simp; omega)
      exact ⟨c2, by rw [show pos + 1 + k = pos + (k + 1) by omega]; exact hc2⟩
    rw [List.length_cons]
    cases ct with
    | none =>
      have hja : envJpegAt env pos = false := by simp [envJpegAt, hct]
      have hstep : downloadLoop env (p :: rest) pos idx cache
          = downloadLoop env rest (pos + 1) idx cache := by
        rw [downloadLoop_step, hct]
      rw [hstep, ih (pos + 1) idx cache hrest]
      have hcnt : jpegCount env pos (rest.length + 1)
          = jpegCount env (pos + 1) rest.length := by
        simp [jpegCount, hja]
      rw [hcnt]
    | some m =>
      cases hjb : m.isImageJpeg with
      | false =>
        have hja : envJpegAt env pos = false := by
          simp [envJpegAt, hct, hjb]
        have hstep : downloadLoop env (p :: rest) pos idx cache
            = downloadLoop env rest (pos + 1) idx cache := by
          rw [downloadLoop_step, hct]
          show (if m.isImageJpeg then
                  downloadLoop env rest (pos + 1) (idx + 1)
                    (insert (cacheName idx) cache)
                else downloadLoop env rest (pos + 1) idx cache)
              = downloadLoop env rest (pos + 1) idx cache
          rw [hjb]
          simp
        rw [hstep, ih (pos + 1) idx cache hrest]
        have hcnt : jpegCount env pos (rest.length + 1)
            = jpegCount env (pos + 1) rest.length := by
          simp [jpegCount, hja]
        rw [hcnt]
      | true =>
        have hja : envJpegAt env pos = true := by
          simp [envJpegAt, hct, hjb]
        have hstep : downloadLoop env (p :: rest) pos idx cache
            = downloadLoop env rest (pos + 1) (idx + 1)
                (insert (cacheName idx) cache) := by
          rw [downloadLoop_step, hct]
          show (if m.isImageJpeg then
                  downloadLoop env rest (pos + 1) (idx + 1)
                    (insert (cacheName idx) cache)
                else downloadLoop env rest (pos + 1) idx cache)
              = downloadLoop env rest (pos + 1) (idx + 1)
                  (insert (cacheName idx) cache)
          rw [hjb]
          simp
        rw [hstep, ih (pos + 1) (idx + 1) _ hrest]
        have hcnt : jpegCount env pos (rest.length + 1)
            = 1 + jpegCount env (pos + 1) rest.length := by
          simp [jpegCount, hja]
        rw [hcnt]
        have e1 : idx + 1 + jpegCount env (pos + 1) rest.length
            = idx + (1 + jpegCount env (pos + 1) rest.length) := by omega
        have e2 : cacheNames idx (1 + jpegCount env (pos + 1) rest.length)
              ∪ cache
            = cacheNames (idx + 1) (jpegCount env (pos + 1) rest.length)
              ∪ insert (cacheName idx) cache := by
          rw [show 1 + jpegCount env (pos + 1) rest.length
              = jpegCount env (pos + 1) rest.length + 1 by omega]
          rw [cacheNames_succ, Finset.insert_union, Finset.union_insert]
        rw [e1, e2]

theorem download_images_ok (env : NetEnv) (cache : Finset String)
    (photos : List Photo)
    (hcl : env.clientRes = Except.ok ())
    (hls : env.listRes =
      Except.ok { statusSuccess := true, jsonBody := Except.ok photos })
    (hfetch : ∀ k, k < photos.length → ∃ ct, env.imgRes k =
      Except.ok { contentType := ct, createRes := Except.ok (),
                  copyRes := Except.ok () }) :
    download_images env cache =
      (Except.ok (jpegCount env 0 photos.length),
       cacheNames 0 (jpegCount env 0 photos.length) ∪ cache) := by
  have hstep : download_images env cache = downloadLoop env photos 0 0 cache := by
    unfold download_images
    rw [hcl, hls]
    rfl
  have hf0 : ∀ k, k < photos.length → ∃ ct, env.imgRes (0 + k) =
      Except.ok { contentType := ct, createRes := Except.ok (),
                  copyRes := Except.ok () } := by
    intro k hk
    obtain ⟨c2, hc2⟩ := hfetch k hk
    exact ⟨c2, by rw [Nat.zero_add]; exact hc2⟩
  rw [hstep, downloadLoop_ok env photos 0 0 cache hf0, Nat.zero_add]

end Wallsplash

namespace Wallsplash

theorem Unsplash.Client.usedIdx_lt (st : Unsplash.Client)
    (hM : 0 < st.total) : st.usedIdx < st.total := by
  unfold Unsplash.Client.usedIdx
  split
  · omega
  · omega

theorem Fetchers.UnsplashFetcher.usedIdx_ltF (st : Fetchers.UnsplashFetcher)
    (hM : 0 < st.total) : st.usedIdx < st.total :=
  Nat.mod_lt _ hM

theorem clientRun_succ (st : Unsplash.Client) (cache : Finset String)
    (times : Nat → Nat) (env : NetEnv) (k : Nat) :
    Unsplash.clientRun st cache times env (k + 1) =
      ((Unsplash.Client.next_image_path
          (Unsplash.clientRun st cache times env k).1
          (Unsplash.clientRun st cache times env k).2 (times k) env).state,
       (Unsplash.Client.next_image_path
          (Unsplash.clientRun st cache times env k).1
          (Unsplash.clientRun st cache times env k).2 (times k) env).cache) :=
  rfl

theorem clientVisit_eq (st : Unsplash.Client) (cache : Finset String)
    (times : Nat → Nat) (env : NetEnv) (k : Nat) :
    Unsplash.clientVisit st cache times env k =
      (Unsplash.Client.next_image_path
        (Unsplash.clientRun st cache times env k).1
        (Unsplash.clientRun st cache times env k).2 (times k) env).result :=
  rfl

theorem uRun_succ (st : Fetchers.UnsplashFetcher) (cache : Finset String)
    (times : Nat → Nat) (env : NetEnv) (k : Nat) :
    Fetchers.uRun st cache times env (k + 1) =
      ((Fetchers.UnsplashFetcher.next_image_path
          (Fetchers.uRun st cache times env k).1
          (Fetchers.uRun st cache times env k).2 (times k) env).state,
       (Fetchers.UnsplashFetcher.next_image_path
          (Fetchers.uRun st cache times env k).1
          (Fetchers.uRun st cache times env k).2 (times k) env).cache) :=
  rfl

theorem uVisit_eq (st : Fetchers.UnsplashFetcher) (cache : Finset String)
    (times : Nat → Nat) (env : NetEnv) (k : Nat) :
    Fetchers.uVisit st cache times env k =
      (Fetchers.UnsplashFetcher.next_image_path
        (Fetchers.uRun st cache times env k).1
        (Fetchers.uRun st cache times env k).2 (times k) env).result :=
  rfl

theorem clientRun_fast (st : Unsplash.Client) (cache : Finset String)
    (times : Nat → Nat) (env : NetEnv)
    (hc : st.cached = true) (hM : 0 < st.total)
    (hf : ∀ k, times k - st.timestamp < st.period) :
    ∀ k, Unsplash.clientRun st cache times env (k + 1) =
        ({ st with curr := (st.usedIdx + k) % st.total + 1 }, cache)
      ∧ Unsplash.clientVisit st cache times env k =
        Except.ok (joinPath st.dir
          (cacheName ((st.usedIdx + k) % st.total))) := by
  have hu : st.usedIdx < st.total := Unsplash.Client.usedIdx_lt st hM
  intro k
  induction k with
  | zero =>
    have h1 : Unsplash.Client.next_image_path st cache (times 0) env =
        { result := Except.ok (joinPath st.dir (cacheName st.usedIdx)),
          state := { st with curr := st.usedIdx + 1 }, cache := cache,
          refreshed := false } := by
      rw [Unsplash.Client.fast_eq st cache (times 0) env hc (hf 0),
        Unsplash.Client.servePath_pos st cache false hM]
    have hmod : (st.usedIdx + 0) % st.total = st.usedIdx := by
      rw [Nat.add_zero, Nat.mod_eq_of_lt hu]
    constructor
    · rw [clientRun_succ]
      rw [show Unsplash.clientRun st cache times env 0 = (st, cache) from rfl]
      rw [show ((st, cache).1 : Unsplash.Client) = st from rfl,
        show ((st, cache).2 : Finset String) = cache from rfl]
      rw [h1, hmod]
    · rw [clientVisit_eq]
      rw [show Unsplash.clientRun st cache times env 0 = (st, cache) from rfl]
      rw [show ((st, cache).1 : Unsplash.Client) = st from rfl,
        show ((st, cache).2 : Finset String) = cache from rfl]
      rw [h1, hmod]
  | succ k ihk =>
    obtain ⟨hrun, _⟩ := ihk
    have hstep : Unsplash.Client.next_image_path
        { st with curr := (st.usedIdx + k) % st.total + 1 } cache
        (times (k + 1)) env =
        { result := Except.ok (joinPath st.dir (cacheName
            (({ st with curr := (st.usedIdx + k) % st.total + 1 }
              : Unsplash.Client).usedIdx))),
          state := { st with curr :=
            ({ st with curr := (st.usedIdx + k) % st.total + 1 }
              : Unsplash.Client).usedIdx + 1 },
          cache := cache, refreshed := false } := by
      rw [Unsplash.Client.fast_eq
        { st with curr := (st.usedIdx + k) % st.total + 1 } cache
        (times (k + 1)) env hc (hf (k + 1))]
      rw [Unsplash.Client.servePath_pos
        { st with curr := (st.usedIdx + k) % st.total + 1 } cache false hM]
    have hused : ({ st with curr := (st.usedIdx + k) % st.total + 1 }
        : Unsplash.Client).usedIdx = (st.usedIdx + (k + 1)) % st.total := by
      have h3 : ((st.usedIdx + k) % st.total + 1) % st.total
          = (st.usedIdx + (k + 1)) % st.total := by
        rw [Nat.mod_add_mod,
          show st.usedIdx + k + 1 = st.usedIdx + (k + 1) by omega]
      have huk : (st.usedIdx + k) % st.total < st.total := Nat.mod_lt _ hM
      show (if (st.usedIdx + k) % st.total + 1 ≥ st.total then 0
          else (st.usedIdx + k) % st.total + 1)
        = (st.usedIdx + (k + 1)) % st.total
      rcases Nat.lt_or_ge ((st.usedIdx + k) % st.total + 1) st.total
        with hlt | hge
      · rw [if_neg (by omega), ← h3, Nat.mod_eq_of_lt hlt]
      · have hEq : (st.usedIdx + k) % st.total + 1 = st.total := by omega
        rw [if_pos hge, ← h3, hEq, Nat.mod_self]
    have hpair1 : ((({ st with curr := (st.usedIdx + k) % st.total + 1 }
        : Unsplash.Client), cache)).1
        = ({ st with curr := (st.usedIdx + k) % st.total + 1 }
          : Unsplash.Client) := rfl
    have hpair2 : ((({ st with curr := (st.usedIdx + k) % st.total + 1 }
        : Unsplash.Client), cache)).2 = cache := rfl
    constructor
    · rw [clientRun_succ, hrun, hpair1, hpair2, hstep, hused]
    · rw [clientVisit_eq, hrun, hpair1, hpair2, hstep, hused]

theorem uRun_fast (st : Fetchers.UnsplashFetcher) (cache : Finset String)
    (times : Nat → Nat) (env : NetEnv)
    (hc : st.cached = true) (hM : 0 < st.total)
    (hf : ∀ k, times k - st.timestamp < st.refresh) :
    ∀ k, Fetchers.uRun st cache times env (k + 1) =
        ({ st with next := (st.usedIdx + k) % st.total + 1 }, cache)
      ∧ Fetchers.uVisit st cache times env k =
        Except.ok (joinPath st.dir
          (cacheName ((st.usedIdx + k) % st.total))) := by
  have hu : st.usedIdx < st.total := Fetchers.UnsplashFetcher.usedIdx_ltF st hM
  intro k
  induction k with
  | zero =>
    have h1 : Fetchers.UnsplashFetcher.next_image_path st cache
        (times 0) env =
        { result := Except.ok (joinPath st.dir (cacheName st.usedIdx)),
          state := { st with next := st.usedIdx + 1 }, cache := cache,
          refreshed := false } := by
      rw [Fetchers.UnsplashFetcher.fast_eqF st cache (times 0) env hc (hf 0),
        Fetchers.UnsplashFetcher.servePath_posF st cache false hM]
    have hmod : (st.usedIdx + 0) % st.total = st.usedIdx := by
      rw [Nat.add_zero, Nat.mod_eq_of_lt hu]
    constructor
    · rw [uRun_succ]
      rw [show Fetchers.uRun st cache times env 0 = (st, cache) from rfl]
      rw [show ((st, cache).1 : Fetchers.UnsplashFetcher) = st from rfl,
        show ((st, cache).2 : Finset String) = cache from rfl]
      rw [h1, hmod]
    · rw [uVisit_eq]
      rw [show Fetchers.uRun st cache times env 0 = (st, cache) from rfl]
      rw [show ((st, cache).1 : Fetchers.UnsplashFetcher) = st from rfl,
        show ((st, cache).2 : Finset String) = cache from rfl]
      rw [h1, hmod]
  | succ k ihk =>
    obtain ⟨hrun, _⟩ := ihk
    have hstep : Fetchers.UnsplashFetcher.next_image_path
        { st with next := (st.usedIdx + k) % st.total + 1 } cache
        (times (k + 1)) env =
        { result := Except.ok (joinPath st.dir (cacheName
            (({ st with next := (st.usedIdx + k) % st.total + 1 }
              : Fetchers.UnsplashFetcher).usedIdx))),
          state := { st with next :=
            ({ st with next := (st.usedIdx + k) % st.total + 1 }
              : Fetchers.UnsplashFetcher).usedIdx + 1 },
          cache := cache, refreshed := false } := by
      rw [Fetchers.UnsplashFetcher.fast_eqF
        { st with next := (st.usedIdx + k) % st.total + 1 } cache
        (times (k + 1)) env hc (hf (k + 1))]
      rw [Fetchers.UnsplashFetcher.servePath_posF
        { st with next := (st.usedIdx + k) % st.total + 1 } cache false hM]
    have hused : ({ st with next := (st.usedIdx + k) % st.total + 1 }
        : Fetchers.UnsplashFetcher).usedIdx
        = (st.usedIdx + (k + 1)) % st.total := by
      show ((st.usedIdx + k) % st.total + 1) % st.total
        = (st.usedIdx + (k + 1)) % st.total
      rw [Nat.mod_add_mod,
        show st.usedIdx + k + 1 = st.usedIdx + (k + 1) by omega]
    have hpair1 : ((({ st with next := (st.usedIdx + k) % st.total + 1 }
        : Fetchers.UnsplashFetcher), cache)).1
        = ({ st with next := (st.usedIdx + k) % st.total + 1 }
          : Fetchers.UnsplashFetcher) := rfl
    have hpair2 : ((({ st with next := (st.usedIdx + k) % st.total + 1 }
        : Fetchers.UnsplashFetcher), cache)).2 = cache := rfl
    constructor
    · rw [uRun_succ, hrun, hpair1, hpair2, hstep, hused]
    · rw [uVisit_eq, hrun, hpair1, hpair2, hstep, hused]

end Wallsplash

namespace Wallsplash

theorem mod_shift_unique (M u : Nat) (hM : 0 < M) :
    ∀ j, j < M → ∃! k, k < M ∧ (u + k) % M = j := by
  have hinj : Function.Injective
      (fun k : Fin M => (⟨(u + k) % M, Nat.mod_lt _ hM⟩ : Fin M)) := by
    intro k1 k2 h
    have h2 : (u + (k1 : Nat)) % M = (u + (k2 : Nat)) % M :=
      congrArg Fin.val h
    have h3 : (k1 : Nat) ≡ (k2 : Nat) [MOD M] :=
      Nat.ModEq.add_left_cancel' u h2
    have h4 : (k1 : Nat) % M = (k2 : Nat) % M := h3
    have e1 : (k1 : Nat) % M = (k1 : Nat) := Nat.mod_eq_of_lt k1.isLt
    have e2 : (k2 : Nat) % M = (k2 : Nat) := Nat.mod_eq_of_lt k2.isLt
    exact Fin.ext (by omega)
  have hsurj : Function.Surjective
      (fun k : Fin M => (⟨(u + k) % M, Nat.mod_lt _ hM⟩ : Fin M)) :=
    Finite.injective_iff_surjective.mp hinj
  intro j hj
  obtain ⟨k, hk⟩ := hsurj ⟨j, hj⟩
  have hkval : (u + (k : Nat)) % M = j := congrArg Fin.val hk
  refine ⟨(k : Nat), ⟨k.isLt, hkval⟩, ?_⟩
  rintro k2 ⟨hk2, hmod⟩
  have heq : (fun k : Fin M => (⟨(u + k) % M, Nat.mod_lt _ hM⟩ : Fin M))
        ⟨k2, hk2⟩
      = (fun k : Fin M => (⟨(u + k) % M, Nat.mod_lt _ hM⟩ : Fin M)) k :=
    Fin.ext (by
      show (u + k2) % M = (u + (k : Nat)) % M
      rw [hmod, hkval])
  exact congrArg Fin.val (hinj heq)

end Wallsplash

namespace Wallsplash

/-- Claim C5: a refresh cycle whose list response holds K+M photos — K
with a non-jpeg (or absent) content type, M with image/jpeg — and whose
every fetch and write succeeds, writes exactly the M cache files `0.jpg`
through `(M-1).jpg` (skipped photos consume no index), returns the count
M, and sets `total = M` (with `cached = true` and a reset timestamp); the
next M calls (made before the interval elapses) visit each written file
exactly once before repeating.  Proved for both `unsplash.rs`'s `Client`
and `fetchers.rs`'s `UnsplashFetcher` (which share `download_images`).
The k-th follow-up call serves the file at index `(u + k) mod M`, where
`u` is the post-refresh-call cursor index, and each index `j < M` is
served by exactly one of the M calls; after M calls the sequence
repeats. -/
theorem refresh_cycle_roundrobin (env : NetEnv) (photos : List Photo)
    (K M : Nat) (st : Unsplash.Client) (stF : Fetchers.UnsplashFetcher)
    (cache cacheF : Finset String) (now nowF : Nat)
    (times timesF : Nat → Nat)
    (hcl : env.clientRes = Except.ok ())
    (hls : env.listRes =
      Except.ok { statusSuccess := true, jsonBody := Except.ok photos })
    (hfetch : ∀ k, k < photos.length → ∃ ct, env.imgRes k =
      Except.ok { contentType := ct, createRes := Except.ok (),
                  copyRes := Except.ok () })
    (hM : M = jpegCount env 0 photos.length)
    (hKM : photos.length = K + M)
    (hMpos : 0 < M)
    (hs : st.needsRefresh now = true)
    (hsF : stF.needsRefresh nowF = true)
    (htimes : ∀ k, times k - now < st.period)
    (htimesF : ∀ k, timesF k - nowF < stF.refresh) :
    download_images env cache = (Except.ok M, cacheNames 0 M ∪ cache)
    ∧ (st.next_image_path cache now env).state.total = M
    ∧ (st.next_image_path cache now env).state.cached = true
    ∧ (st.next_image_path cache now env).state.timestamp = now
    ∧ (st.next_image_path cache now env).cache = cacheNames 0 M ∪ cache
    ∧ (∀ k, Unsplash.clientVisit (st.next_image_path cache now env).state
          (st.next_image_path cache now env).cache times env k =
        Except.ok (joinPath st.dir (cacheName
          (((st.next_image_path cache now env).state.usedIdx + k) % M))))
    ∧ (∀ j, j < M → ∃! k, k < M ∧
        ((st.next_image_path cache now env).state.usedIdx + k) % M = j)
    ∧ ((st.next_image_path cache now env).state.usedIdx + M) % M
        = (st.next_image_path cache now env).state.usedIdx % M
    ∧ (stF.next_image_path cacheF nowF env).state.total = M
    ∧ (stF.next_image_path cacheF nowF env).state.cached = true
    ∧ (stF.next_image_path cacheF nowF env).state.timestamp = nowF
    ∧ (stF.next_image_path cacheF nowF env).cache = cacheNames 0 M ∪ cacheF
    ∧ (∀ k, Fetchers.uVisit (stF.next_image_path cacheF nowF env).state
          (stF.next_image_path cacheF nowF env).cache timesF env k =
        Except.ok (joinPath stF.dir (cacheName
          (((stF.next_image_path cacheF nowF env).state.usedIdx + k) % M))))
    ∧ (∀ j, j < M → ∃! k, k < M ∧
        ((stF.next_image_path cacheF nowF env).state.usedIdx + k) % M = j)
    ∧ ((stF.next_image_path cacheF nowF env).state.usedIdx + M) % M
        = (stF.next_image_path cacheF nowF env).state.usedIdx % M := by
  have hdl : download_images env cache =
      (Except.ok M, cacheNames 0 M ∪ cache) := by
    rw [download_images_ok env cache photos hcl hls hfetch, ← hM]
  have hdlF : download_images env cacheF =
      (Except.ok M, cacheNames 0 M ∪ cacheF) := by
    rw [download_images_ok env cacheF photos hcl hls hfetch, ← hM]
  rw [Unsplash.Client.refresh_ok_eq st cache _ now env M hs hdl,
    Unsplash.Client.servePath_pos _ _ _ hMpos,
    Fetchers.UnsplashFetcher.refresh_ok_eqF stF cacheF _ nowF env M hsF hdlF,
    Fetchers.UnsplashFetcher.servePath_posF _ _ _ hMpos]
  refine ⟨hdl, rfl, rfl, rfl, rfl, ?_, ?_, ?_, rfl, rfl, rfl, rfl,
    ?_, ?_, ?_⟩
  · intro k
    exact ((clientRun_fast _ _ times env rfl hMpos htimes) k).2
  · exact mod_shift_unique M _ hMpos
  · exact Nat.add_mod_right _ M
  · intro k
    exact ((uRun_fast _ _ timesF env rfl hMpos htimesF) k).2
  · exact mod_shift_unique M _ hMpos
  · exact Nat.add_mod_right _ M

end Wallsplash

namespace Wallsplash

/-- Witness for `refresh_cycle_roundrobin`: a fresh client refreshing
against a 3-photo batch (jpeg, png, jpeg): the cycle returns 2, writes
`0.jpg` and `1.jpg`, sets `total = 2`, and the follow-up calls hit each
of the two files exactly once per round. -/
theorem refresh_cycle_roundrobin_witness :
    download_images envC5 ∅ = (Except.ok 2, cacheNames 0 2 ∪ ∅)
    ∧ (c9st.next_image_path ∅ 5 envC5).state.total = 2
    ∧ (c9st.next_image_path ∅ 5 envC5).state.cached = true
    ∧ (∀ j, j < 2 → ∃! k, k < 2 ∧
        ((c9st.next_image_path ∅ 5 envC5).state.usedIdx + k) % 2 = j)
    ∧ (c9stF.next_image_path ∅ 5 envC5).state.total = 2 := by
  have h := refresh_cycle_roundrobin envC5
    [{ id := "p1", download := "u1" }, { id := "p2", download := "u2" },
     { id := "p3", download := "u3" }] 1 2 c9st c9stF ∅ ∅ 5 5
    (fun _ => 5) (fun _ => 5) rfl rfl
    (by
      intro k hk
      have hk3 : k < 3 := by simpa using hk
      interval_cases k
      · exact ⟨some { top := "image", sub := "jpeg" }, rfl⟩
      · exact ⟨some { top := "image", sub := "png" }, rfl⟩
      · exact ⟨some { top := "image", sub := "jpeg" }, rfl⟩)
    (by decide) (by decide) (by decide) (by decide) (by decide)
    (fun k => show 5 - 5 < c9st.period by decide)
    (fun k => show 5 - 5 < c9stF.refresh by decide)
  exact ⟨h.1, h.2.1, h.2.2.1, h.2.2.2.2.2.2.1, h.2.2.2.2.2.2.2.2.1⟩

end Wallsplash
